import Mathlib

/-!
# PETPVC, `src/GTMtest.cxx`: the GTM driver program

A shallow embedding of `main` of `GTMtest.cxx`.  The program parses its command
line with `MetaCommand`, reads a 4-D mask and a 3-D PET image with ITK readers,
turns the FWHM of the point-spread function into a variance in voxel units and
runs `petpvc::RoussetPVCImageFilter` on the two images.

Everything `main` calls but does not define (the command-line parser, the two
readers, the C math library, the filter) is a field of `World` or of
`MathLib`, so that `main` is a function from what the outside world answers to
what the program does: the calls it makes on the filter, what it prints on
`std::cerr`, the files it writes and how it ends.

Arithmetic is read twice.  `main` and `vVariance` compute over a field `α`;
theorems about them are stated over `ℝ`, with `Real.sqrt` and `Real.log` for
`sqrt` and `log`, and say nothing about rounding.  `mainFloat` and
`vVarianceFloat` compute as the source does, in IEEE 754 `float` and `double`
with rounding to nearest, ties to even, overflow to infinity and underflow to
zero; their values are `FpValue`s.
-/

namespace PETPVC

/-! ## Data model -/

/-- The type `VectorType`, that is `itk::Vector<float, 3>`: three components, indexed
`[0]`, `[1]`, `[2]` in the source. -/
structure VectorType (α : Type) where
  /-- component `[0]` -/
  x : α
  /-- component `[1]` -/
  y : α
  /-- component `[2]` -/
  z : α
  deriving DecidableEq, Repr

/-- Component access `v[i]`. -/
def VectorType.get {α : Type} (v : VectorType α) : Fin 3 → α
  | 0 => v.x
  | 1 => v.y
  | 2 => v.z

/-- The operator `itk::Vector::operator/` by a scalar: every component is divided by `c`. -/
def VectorType.divScalar {α : Type} [Div α] (v : VectorType α) (c : α) : VectorType α :=
  ⟨v.x / c, v.y / c, v.z / c⟩

/-- The type `PETImageType`, `itk::Image<float, 3>`: the grid size, the voxel spacing
returned by `GetSpacing()` and the pixel buffer. -/
structure PETImageType (α : Type) where
  /-- number of voxels along x, y, z -/
  size : Nat × Nat × Nat
  /-- voxel spacing in mm, as `GetSpacing()` returns it -/
  spacing : VectorType α
  /-- pixel buffer -/
  pixels : List α
  deriving DecidableEq, Repr

/-- The type `MaskImageType`, `itk::Image<float, 4>`: three spatial axes and the region
axis. -/
structure MaskImageType (α : Type) where
  /-- number of voxels along x, y, z and number of regions -/
  size : Nat × Nat × Nat × Nat
  /-- spacing along the three spatial axes -/
  spacing : VectorType α
  /-- pixel buffer -/
  pixels : List α
  deriving DecidableEq, Repr

/-- What `command.Parse` leaves behind when it returns `true`: the three
positional fields and the three required FWHM options. -/
structure CommandLine (α : Type) where
  /-- field `petfile` -/
  petfile : String
  /-- field `maskfile` -/
  maskfile : String
  /-- field `outputfile` -/
  outputfile : String
  /-- option `-x` -/
  FWHMx : α
  /-- option `-y` -/
  FWHMy : α
  /-- option `-z` -/
  FWHMz : α
  deriving DecidableEq, Repr

/-- An `itk::ExceptionObject`, the only exception type `main` catches; it
carries its description. -/
structure ExceptionObject where
  /-- text of `what()` -/
  what : String
  deriving DecidableEq, Repr

/-- The functions of `<cmath>` that `main` calls. -/
structure MathLib (α : Type) where
  /-- the function `sqrt` -/
  sqrt : α → α
  /-- the function `log`, the natural logarithm -/
  log : α → α

/-- What has been set on the filter at the moment `Update()` is called. -/
structure FilterInputs (α : Type) where
  /-- argument of `SetInput` -/
  input : PETImageType α
  /-- argument of `SetMaskInput` -/
  mask : MaskImageType α
  /-- argument of `SetPSF` -/
  psf : VectorType α
  deriving DecidableEq, Repr

/-- The collaborators of `main`: each field is the answer of code that `main`
calls and that lies outside `GTMtest.cxx`. -/
structure World (α : Type) where
  /-- the call `command.Parse(argc, argv)`: `none` when it returns `false` -/
  parse : Option (CommandLine α)
  /-- the call `maskReader->Update()` on a file name: the image, or the exception thrown -/
  readMask : String → Except ExceptionObject (MaskImageType α)
  /-- the call `petReader->Update()` on a file name: the image, or the exception thrown -/
  readPET : String → Except ExceptionObject (PETImageType α)
  /-- the call `gtmFilter->Update()` on a configured filter: returns, or throws -/
  filterUpdate : FilterInputs α → Except ExceptionObject Unit

/-- What `main` does that can be seen from outside, in program order. -/
inductive Event (α : Type) where
  /-- text sent to `std::cerr` -/
  | cerr (text : String)
  /-- the call `FilterType::New()` -/
  | filterNew
  /-- the call `gtmFilter->SetInput(img)` -/
  | setInput (img : PETImageType α)
  /-- the call `gtmFilter->SetMaskInput(img)` -/
  | setMaskInput (img : MaskImageType α)
  /-- the call `gtmFilter->SetPSF(v)` -/
  | setPSF (v : VectorType α)
  /-- the call `gtmFilter->Update()` -/
  | filterUpdate
  /-- an image is written to a file (an `itk::ImageFileWriter` is updated) -/
  | writeImage (path : String) (img : PETImageType α)
  deriving DecidableEq, Repr

/-- How `main` ends: it returns a status, or an exception leaves `main`
uncaught. -/
inductive Outcome where
  /-- the statement `return code;` -/
  | returned (code : Int)
  /-- an exception propagates out of `main` -/
  | uncaught (e : ExceptionObject)
  deriving DecidableEq, Repr

/-- A run of `main`: the events in order and the way it ended. -/
structure Run (α : Type) where
  /-- events, first to last -/
  trace : List (Event α)
  /-- how the run ended -/
  outcome : Outcome
  deriving DecidableEq, Repr

/-- The macro `EXIT_SUCCESS` of `<cstdlib>`. -/
def EXIT_SUCCESS : Int := 0

/-- The macro `EXIT_FAILURE` of `<cstdlib>`. -/
def EXIT_FAILURE : Int := 1

/-! ## The program -/

/-- Lines 81-85 of `main`: the vector of FWHM in x, y and z. -/
def vFWHM {α : Type} (command : CommandLine α) : VectorType α :=
  ⟨command.FWHMx, command.FWHMy, command.FWHMz⟩

/-- Lines 113-124 of `main`: the variance for a given FWHM, scaled for the
voxel size.  `vVariance = vFWHM / (2.0 * sqrt(2.0 * log(2.0)))`, then each
component is replaced by `pow(vVariance[i] / vVoxelSize[i], 2)`. -/
def vVariance {α : Type} [Field α] (m : MathLib α) (vFWHM vVoxelSize : VectorType α) :
    VectorType α :=
  let v0 : VectorType α := vFWHM.divScalar (2 * m.sqrt (2 * m.log 2))
  let v1 : VectorType α := { v0 with x := (v0.x / vVoxelSize.x) ^ 2 }
  let v2 : VectorType α := { v1 with y := (v1.y / vVoxelSize.y) ^ 2 }
  { v2 with z := (v2.z / vVoxelSize.z) ^ 2 }

/-- The function `main` of `GTMtest.cxx`, lines 25-139. -/
def main {α : Type} [Field α] (m : MathLib α) (w : World α) : Run α :=
  -- Parse command line.
  match w.parse with
  | none => ⟨[], .returned EXIT_FAILURE⟩
  | some command =>
    -- Get image filenames
    let sPETFileName := command.petfile
    let sMaskFileName := command.maskfile
    let _sOutputFileName := command.outputfile
    -- Make vector of FWHM in x, y and z.
    let fwhm : VectorType α := vFWHM command
    -- Try to read mask.
    match w.readMask sMaskFileName with
    | .error _ =>
      ⟨[.cerr ("[Error]\tCannot read mask input file: " ++ sMaskFileName ++ "\n")],
        .returned EXIT_FAILURE⟩
    | .ok mask =>
      -- Try to read PET.
      match w.readPET sPETFileName with
      | .error _ =>
        ⟨[.cerr ("[Error]\tCannot read PET input file: " ++ sPETFileName ++ "\n")],
          .returned EXIT_FAILURE⟩
      | .ok pet =>
        -- Calculate the variance for a given FWHM, scale for voxel size.
        let vVoxelSize := pet.spacing
        let variance := vVariance m fwhm vVoxelSize
        let calls : List (Event α) :=
          [.filterNew, .setInput pet, .setMaskInput mask, .setPSF variance, .filterUpdate]
        match w.filterUpdate ⟨pet, mask, variance⟩ with
        | .error e => ⟨calls, .uncaught e⟩
        | .ok _ => ⟨calls, .returned EXIT_SUCCESS⟩

/-! ## The arithmetic of the source

Lines 113-124 compute in `float` and `double`.  The values of both types are
`FpValue`s; an operation computes the exact rational result and rounds it to
the format it is carried out in. -/

/-- A value of an IEEE 754 binary format: not a number, an infinity, or a sign
and a magnitude.  The magnitude is a non-negative rational; the sign is kept
apart so that `-0` exists. -/
inductive FpValue where
  /-- not a number -/
  | nan
  /-- an infinity; `neg` is the sign bit -/
  | inf (neg : Bool)
  /-- a finite value; `neg` is the sign bit and `mag` the magnitude -/
  | fin (neg : Bool) (mag : ℚ)
  deriving DecidableEq, Repr

/-- An IEEE 754 binary format. -/
structure FpFormat where
  /-- number of significand bits, the hidden bit included -/
  prec : Nat
  /-- exponent of the smallest normal number -/
  emin : Int
  /-- exponent of the largest finite number -/
  emax : Int
  deriving DecidableEq, Repr

/-- The natural number nearest to `n`, the even one when two are as near. -/
def roundHalfEven (n : ℚ) : Nat :=
  let below : Nat := ⌊n⌋₊
  let rest : ℚ := n - below
  if rest < 1 / 2 then below
  else if 1 / 2 < rest then below + 1
  else if below % 2 = 0 then below else below + 1

/-- Rounding of the magnitude `q` to the format `fmt`, to nearest, ties to even.
The spacing of the format at `q` is `2 ^ (e - (prec - 1))`, where `e` is the
exponent of `q`, or `emin` for a subnormal `q`; a result that reaches
`2 ^ (emax + 1)` is an infinity. -/
def roundTo (fmt : FpFormat) (neg : Bool) (q : ℚ) : FpValue :=
  if q ≤ 0 then .fin neg 0
  else
    let e : Int := max (Int.log 2 q) fmt.emin
    let ulp : ℚ := 2 ^ (e - ((fmt.prec : Int) - 1))
    let val : ℚ := (roundHalfEven (q / ulp) : ℚ) * ulp
    if 2 ^ (fmt.emax + 1) ≤ val then .inf neg else .fin neg val

/-- The function `main` with lines 113-124 left open: `variance` computes the
vector handed to `SetPSF` from the FWHM vector and the spacing of the PET
image.  Every other line is as in `main`. -/
def mainWith {α : Type} (variance : VectorType α → VectorType α → VectorType α)
    (w : World α) : Run α :=
  match w.parse with
  | none => ⟨[], .returned EXIT_FAILURE⟩
  | some command =>
    let sPETFileName := command.petfile
    let sMaskFileName := command.maskfile
    let _sOutputFileName := command.outputfile
    let fwhm : VectorType α := vFWHM command
    match w.readMask sMaskFileName with
    | .error _ =>
      ⟨[.cerr ("[Error]\tCannot read mask input file: " ++ sMaskFileName ++ "\n")],
        .returned EXIT_FAILURE⟩
    | .ok mask =>
      match w.readPET sPETFileName with
      | .error _ =>
        ⟨[.cerr ("[Error]\tCannot read PET input file: " ++ sPETFileName ++ "\n")],
          .returned EXIT_FAILURE⟩
      | .ok pet =>
        let variance := variance fwhm pet.spacing
        let calls : List (Event α) :=
          [.filterNew, .setInput pet, .setMaskInput mask, .setPSF variance, .filterUpdate]
        match w.filterUpdate ⟨pet, mask, variance⟩ with
        | .error e => ⟨calls, .uncaught e⟩
        | .ok _ => ⟨calls, .returned EXIT_SUCCESS⟩

/-- Does the event touch the GTM filter (construct it, configure it, run it)? -/
def Event.isFilter {α : Type} : Event α → Bool
  | .filterNew => true
  | .setInput _ => true
  | .setMaskInput _ => true
  | .setPSF _ => true
  | .filterUpdate => true
  | _ => false

/-- Does the event write an image file? -/
def Event.isWrite {α : Type} : Event α → Bool
  | .writeImage _ _ => true
  | _ => false

/-- The vectors handed to `SetPSF` during a run, in order. -/
def Run.psfs {α : Type} (r : Run α) : List (VectorType α) :=
  r.trace.filterMap fun e => match e with
    | .setPSF v => some v
    | _ => none

/-- The text sent to `std::cerr` during a run, in order. -/
def Run.diagnostics {α : Type} (r : Run α) : List String :=
  r.trace.filterMap fun e => match e with
    | .cerr s => some s
    | _ => none

/-- The files written during a run, in order. -/
def Run.written {α : Type} (r : Run α) : List (String × PETImageType α) :=
  r.trace.filterMap fun e => match e with
    | .writeImage p img => some (p, img)
    | _ => none

/-- The three spatial extents of a mask, without the region axis. -/
def MaskImageType.spatialSize {α : Type} (mask : MaskImageType α) : Nat × Nat × Nat :=
  (mask.size.1, mask.size.2.1, mask.size.2.2.1)

/-! ## Concrete runs

A small disk with one PET image and two masks, and command lines over it. -/

section Samples

variable {α : Type} [Field α]

/-- A PET image of 2 x 2 x 2 voxels, 2 mm apart, of uniform intensity 100. -/
def samplePET : PETImageType α :=
  ⟨(2, 2, 2), ⟨2, 2, 2⟩, List.replicate 8 100⟩

/-- A one-region mask on the grid of `samplePET`. -/
def sampleMask : MaskImageType α :=
  ⟨(2, 2, 2, 1), ⟨2, 2, 2⟩, List.replicate 8 1⟩

/-- A one-region mask of 3 x 3 x 3 voxels, 1 mm apart: neither its extent nor
its spacing is that of `samplePET`. -/
def otherGridMask : MaskImageType α :=
  ⟨(3, 3, 3, 1), ⟨1, 1, 1⟩, List.replicate 27 1⟩

/-- The mask reader on the sample disk: `mask.nii` and `mask3.nii` exist. -/
def sampleReadMask (name : String) : Except ExceptionObject (MaskImageType α) :=
  if name = "mask.nii" then .ok sampleMask
  else if name = "mask3.nii" then .ok otherGridMask
  else .error ⟨"Could not open " ++ name⟩

/-- The PET reader on the sample disk: `pet.nii` exists. -/
def sampleReadPET (name : String) : Except ExceptionObject (PETImageType α) :=
  if name = "pet.nii" then .ok samplePET
  else .error ⟨"Could not open " ++ name⟩

/-- The run `GTMtest pet.nii mask.nii out.nii -x 4 -y 4 -z 4`, and a filter that runs
to the end. -/
def goodWorld : World α :=
  ⟨some ⟨"pet.nii", "mask.nii", "out.nii", 4, 4, 4⟩, sampleReadMask, sampleReadPET,
    fun _ => .ok ()⟩

/-- The run `GTMtest pet.nii nomask.nii out.nii -x 4 -y 4 -z 4`: the mask file does not
exist. -/
def missingMaskWorld : World α :=
  ⟨some ⟨"pet.nii", "nomask.nii", "out.nii", 4, 4, 4⟩, sampleReadMask, sampleReadPET,
    fun _ => .ok ()⟩

/-- The run `GTMtest nopet.nii mask.nii out.nii -x 4 -y 4 -z 4`: the PET file does not
exist. -/
def missingPETWorld : World α :=
  ⟨some ⟨"nopet.nii", "mask.nii", "out.nii", 4, 4, 4⟩, sampleReadMask, sampleReadPET,
    fun _ => .ok ()⟩

/-- The command line of `goodWorld`, with a filter whose `Update()` throws. -/
def updateThrowsWorld : World α :=
  ⟨some ⟨"pet.nii", "mask.nii", "out.nii", 4, 4, 4⟩, sampleReadMask, sampleReadPET,
    fun _ => .error ⟨"GTM failed"⟩⟩

/-- The run `GTMtest pet.nii mask.nii out.nii -x -4 -y 4 -z 4`: a negative FWHM. -/
def negativeFWHMWorld : World α :=
  ⟨some ⟨"pet.nii", "mask.nii", "out.nii", -4, 4, 4⟩, sampleReadMask, sampleReadPET,
    fun _ => .ok ()⟩

/-- The run `GTMtest pet.nii mask3.nii out.nii -x 4 -y 4 -z 4`: the mask is on another
grid than the PET image; `update` is what the filter's `Update()` does. -/
def otherGridWorld (update : Except ExceptionObject Unit) : World α :=
  ⟨some ⟨"pet.nii", "mask3.nii", "out.nii", 4, 4, 4⟩, sampleReadMask, sampleReadPET,
    fun _ => update⟩

end Samples

/-! ## Concrete runs in the arithmetic of the source -/

/-- Modelled from the spec: the failure a linear solve can report (section 7,
`SingularMatrixError`).  It belongs to `petpvcRoussetPVCImageFilter.h`, which
`GTMtest.cxx` includes and which is not among the sources. -/
inductive SolverError where
  /-- the transfer matrix cannot be inverted or stably pseudo-inverted -/
  | SingularMatrixError
  deriving DecidableEq, Repr

/-- Modelled from the spec: `solve(G, m)` of the LinearSolver (section 4.5), the
solve that `RoussetPVCImageFilter::Update()` performs; the filter's header
`petpvcRoussetPVCImageFilter.h` is not among the sources.  The spec asks for a
direct solve of `G·c = m` when `G` is well-conditioned and for a fallback
(least squares or pseudo-inverse, which may report `SingularMatrixError`)
otherwise.  Over an exact field, well-conditioned is read as `det G ≠ 0`; the
direct solve is Cramer's rule; the fallback, which the spec leaves
open, is the parameter `fallback`. -/
def solve {K : Nat} {α : Type} [Field α] [DecidableEq α]
    (fallback : Matrix (Fin K) (Fin K) α → (Fin K → α) → Except SolverError (Fin K → α))
    (G : Matrix (Fin K) (Fin K) α) (m : Fin K → α) : Except SolverError (Fin K → α) :=
  if G.det = 0 then fallback G m
  else .ok fun i => Matrix.cramer G m i / G.det

/-- Modelled from the spec: the forward simulation `m = G·t` of the round-trip
property (section 8): the measured regional means that the true activities `t`
give under the transfer matrix `G`. -/
def forwardSimulate {K : Nat} {α : Type} [Field α]
    (G : Matrix (Fin K) (Fin K) α) (t : Fin K → α) : Fin K → α :=
  G.mulVec t

/-! ## Lemmas on the program -/

section Lemmas

variable {α : Type} [Field α]

/-- A run in which `Parse` returns `false`. -/
lemma main_parse_failed (m : MathLib α) (w : World α) (h : w.parse = none) :
    main m w = ⟨[], .returned EXIT_FAILURE⟩ := by
  simp [main, h]

/-- A run in which the mask reader throws. -/
lemma main_mask_failed (m : MathLib α) (w : World α) (command : CommandLine α)
    (e : ExceptionObject) (hp : w.parse = some command)
    (hm : w.readMask command.maskfile = .error e) :
    main m w =
      ⟨[.cerr ("[Error]\tCannot read mask input file: " ++ command.maskfile ++ "\n")],
        .returned EXIT_FAILURE⟩ := by
  simp [main, hp, hm]

/-- A run in which the mask is read and the PET reader throws. -/
lemma main_pet_failed (m : MathLib α) (w : World α) (command : CommandLine α)
    (mask : MaskImageType α) (e : ExceptionObject) (hp : w.parse = some command)
    (hm : w.readMask command.maskfile = .ok mask)
    (hr : w.readPET command.petfile = .error e) :
    main m w =
      ⟨[.cerr ("[Error]\tCannot read PET input file: " ++ command.petfile ++ "\n")],
        .returned EXIT_FAILURE⟩ := by
  simp [main, hp, hm, hr]

/-- The trace of a run in which the command line is parsed and both images are
read: the filter is created, given the two images and the variance, and
updated. -/
lemma main_trace_of_reads (m : MathLib α) (w : World α) (command : CommandLine α)
    (mask : MaskImageType α) (pet : PETImageType α) (hp : w.parse = some command)
    (hm : w.readMask command.maskfile = .ok mask)
    (hr : w.readPET command.petfile = .ok pet) :
    (main m w).trace =
      [.filterNew, .setInput pet, .setMaskInput mask,
        .setPSF (vVariance m (vFWHM command) pet.spacing), .filterUpdate] := by
  simp only [main, hp, hm, hr]
  cases w.filterUpdate ⟨pet, mask, vVariance m (vFWHM command) pet.spacing⟩ <;> rfl

/-- The outcome of a run in which the command line is parsed and both images
are read is decided by the filter's `Update()`. -/
lemma main_outcome_of_reads (m : MathLib α) (w : World α) (command : CommandLine α)
    (mask : MaskImageType α) (pet : PETImageType α) (hp : w.parse = some command)
    (hm : w.readMask command.maskfile = .ok mask)
    (hr : w.readPET command.petfile = .ok pet) :
    (main m w).outcome =
      match w.filterUpdate ⟨pet, mask, vVariance m (vFWHM command) pet.spacing⟩ with
      | .error e => .uncaught e
      | .ok _ => .returned EXIT_SUCCESS := by
  simp only [main, hp, hm, hr]
  cases w.filterUpdate ⟨pet, mask, vVariance m (vFWHM command) pet.spacing⟩ <;> rfl

/-- Each component of the variance, written out. -/
lemma vVariance_get (m : MathLib α) (f s : VectorType α) (a : Fin 3) :
    (vVariance m f s).get a = (f.get a / (2 * m.sqrt (2 * m.log 2)) / s.get a) ^ 2 := by
  fin_cases a <;> rfl

end Lemmas

/-- The constant `2.0 * sqrt(2.0 * log(2.0))` is positive over the reals. -/
lemma fwhm_factor_pos : 0 < 2 * Real.sqrt (2 * Real.log 2) := by
  have h : 0 < Real.log 2 := Real.log_pos (by norm_num)
  positivity

/-! ## Lemmas on the arithmetic of the source -/

lemma roundHalfEven_le (n : ℚ) (N : ℕ) (h : n ≤ N) : roundHalfEven n ≤ N := by
  unfold roundHalfEven
  have hfl : ⌊n⌋₊ ≤ N := Nat.floor_le_of_le h
  by_cases h1 : n - (⌊n⌋₊ : ℚ) < 1 / 2
  · simp only [h1, if_true]
    exact hfl
  · have hlt : (⌊n⌋₊ : ℚ) < N := by linarith
    have hlt2 : ⌊n⌋₊ < N := by exact_mod_cast hlt
    simp only [h1, if_false]
    split_ifs <;> omega

lemma le_roundHalfEven (n : ℚ) (N : ℕ) (h : (N : ℚ) ≤ n) : N ≤ roundHalfEven n := by
  unfold roundHalfEven
  have hfl : N ≤ ⌊n⌋₊ := Nat.le_floor h
  simp only
  split_ifs <;> omega

lemma roundTo_zero (fmt : FpFormat) (neg : Bool) : roundTo fmt neg 0 = .fin neg 0 := by
  simp [roundTo]

/-- The exponent that `roundTo` works at lies under every `j` with `q ≤ 2 ^ j`
that is on the grid of the format. -/
lemma ulp_exponent_le (fmt : FpFormat) (hp : 1 ≤ fmt.prec) (q : ℚ) (hq : 0 < q) (j : ℤ)
    (hjmin : fmt.emin - fmt.prec + 1 ≤ j) (hqj : q ≤ 2 ^ j) :
    max (Int.log 2 q) fmt.emin - ((fmt.prec : ℤ) - 1) ≤ j := by
  have hlog : Int.log 2 q ≤ j := by
    have h1 := Int.log_mono_right (b := 2) hq hqj
    have h2 : Int.log 2 ((2 : ℚ) ^ j) = j := by
      have := Int.log_zpow (R := ℚ) (b := 2) (by norm_num) j
      simpa using this
    rw [h2] at h1
    exact h1
  have hp1 : (1 : ℤ) ≤ fmt.prec := by exact_mod_cast hp
  rcases max_cases (Int.log 2 q) fmt.emin with ⟨h, _⟩ | ⟨h, _⟩ <;> rw [h] <;> omega

lemma roundTo_le (fmt : FpFormat) (hp : 1 ≤ fmt.prec) (neg : Bool) (q : ℚ) (j : ℤ)
    (h0 : 0 ≤ q) (hqj : q ≤ 2 ^ j) (hjmin : fmt.emin - fmt.prec + 1 ≤ j) (hjmax : j ≤ fmt.emax) :
    ∃ v : ℚ, roundTo fmt neg q = .fin neg v ∧ 0 ≤ v ∧ v ≤ 2 ^ j := by
  rcases h0.eq_or_lt with h | hpos
  · subst h
    exact ⟨0, roundTo_zero fmt neg, le_rfl, by positivity⟩
  · have ht := ulp_exponent_le fmt hp q hpos j hjmin hqj
    unfold roundTo
    simp only [not_le.mpr hpos, if_false]
    set t : ℤ := max (Int.log 2 q) fmt.emin - ((fmt.prec : ℤ) - 1) with htdef
    have hulp : (0 : ℚ) < 2 ^ t := by positivity
    have hN : ((2 ^ (j - t).toNat : ℕ) : ℚ) * 2 ^ t = 2 ^ j := by
      have h1 : ((2 ^ (j - t).toNat : ℕ) : ℚ) = (2 : ℚ) ^ (j - t) := by
        rw [Nat.cast_pow, ← zpow_natCast, Int.toNat_of_nonneg (by omega)]
        norm_num
      rw [h1, ← zpow_add₀ (by norm_num : (2 : ℚ) ≠ 0)]
      congr 1
      omega
    have hr : roundHalfEven (q / 2 ^ t) ≤ 2 ^ (j - t).toNat := by
      apply roundHalfEven_le
      rw [div_le_iff₀ hulp, hN]
      exact hqj
    have hval : (roundHalfEven (q / 2 ^ t) : ℚ) * 2 ^ t ≤ 2 ^ j := by
      rw [← hN]
      exact mul_le_mul_of_nonneg_right (by exact_mod_cast hr) hulp.le
    have hlt : ¬ ((2 : ℚ) ^ (fmt.emax + 1) ≤ (roundHalfEven (q / 2 ^ t) : ℚ) * 2 ^ t) := by
      rw [not_le]
      refine lt_of_le_of_lt hval ?_
      exact zpow_lt_zpow_right₀ (by norm_num) (by omega)
    simp only [hlt, if_false]
    exact ⟨_, rfl, by positivity, hval⟩


lemma two_zpow_log_le (q : ℚ) (hq : 0 < q) : (2 : ℚ) ^ Int.log 2 q ≤ q := by
  have := Int.zpow_log_le_self (R := ℚ) (b := 2) (by norm_num) hq
  simpa using this

lemma le_log_of_two_zpow_le (q : ℚ) (k : ℤ) (h : (2 : ℚ) ^ k ≤ q) :
    k ≤ Int.log 2 q := by
  have h1 := Int.log_mono_right (b := 2) (by positivity : (0 : ℚ) < 2 ^ k) h
  have h2 : Int.log 2 ((2 : ℚ) ^ k) = k := by
    have := Int.log_zpow (R := ℚ) (b := 2) (by norm_num) k
    simpa using this
  rw [h2] at h1
  exact h1

lemma le_roundTo (fmt : FpFormat) (hp : 1 ≤ fmt.prec) (neg : Bool) (q : ℚ) (k j : ℤ)
    (hk : fmt.emin - fmt.prec + 1 ≤ k) (hkq : 2 ^ k ≤ q) (hqj : q ≤ 2 ^ j)
    (hjmax : j ≤ fmt.emax) :
    ∃ v : ℚ, roundTo fmt neg q = .fin neg v ∧ 2 ^ k ≤ v ∧ v ≤ 2 ^ j := by
  have hpos : 0 < q := lt_of_lt_of_le (by positivity) hkq
  have hkj : k ≤ j := by
    have := le_trans hkq hqj
    exact (zpow_le_zpow_iff_right₀ (by norm_num : (1 : ℚ) < 2)).mp this
  obtain ⟨v, hv, _, hvj⟩ := roundTo_le fmt hp neg q j hpos.le hqj (by omega) hjmax
  refine ⟨v, hv, ?_, hvj⟩
  have hklog := le_log_of_two_zpow_le q k hkq
  have hp1 : (1 : ℤ) ≤ fmt.prec := by exact_mod_cast hp
  unfold roundTo at hv
  simp only [not_le.mpr hpos, if_false] at hv
  set t : ℤ := max (Int.log 2 q) fmt.emin - ((fmt.prec : ℤ) - 1) with htdef
  have htl : t ≤ Int.log 2 q := by
    rcases max_cases (Int.log 2 q) fmt.emin with ⟨h, _⟩ | ⟨h, _⟩ <;> rw [htdef, h] <;> omega
  have hulp : (0 : ℚ) < 2 ^ t := by positivity
  have hN : ((2 ^ (Int.log 2 q - t).toNat : ℕ) : ℚ) * 2 ^ t = 2 ^ Int.log 2 q := by
    have h1 : ((2 ^ (Int.log 2 q - t).toNat : ℕ) : ℚ) = (2 : ℚ) ^ (Int.log 2 q - t) := by
      rw [Nat.cast_pow, ← zpow_natCast, Int.toNat_of_nonneg (by omega)]
      norm_num
    rw [h1, ← zpow_add₀ (by norm_num : (2 : ℚ) ≠ 0)]
    congr 1
    omega
  have hr : 2 ^ (Int.log 2 q - t).toNat ≤ roundHalfEven (q / 2 ^ t) := by
    apply le_roundHalfEven
    rw [le_div_iff₀ hulp, hN]
    exact two_zpow_log_le q hpos
  have hval : (2 : ℚ) ^ Int.log 2 q ≤ (roundHalfEven (q / 2 ^ t) : ℚ) * 2 ^ t := by
    rw [← hN]
    exact mul_le_mul_of_nonneg_right (by exact_mod_cast hr) hulp.le
  have hkl : (2 : ℚ) ^ k ≤ 2 ^ Int.log 2 q :=
    zpow_le_zpow_right₀ (by norm_num) hklog
  split_ifs at hv with hov
  cases hv
  exact le_trans hkl hval

/-- The function `main` is `mainWith` at `vVariance`. -/
lemma main_eq_mainWith {α : Type} [Field α] (m : MathLib α) (w : World α) :
    main m w = mainWith (vVariance m) w := rfl

/-! ## Control flow of `main` -/

/-- C2: the GTM filter is touched (created, configured or updated) in a run only
if the command line was parsed and the mask and the PET image were both read;
and in every run where the mask reader or the PET reader throws, `main`
returns `EXIT_FAILURE` and no event of the run touches the filter. -/
theorem C2_filter_needs_parse_and_reads {α : Type} [Field α] (m : MathLib α) (w : World α) :
    ((∃ e ∈ (main m w).trace, e.isFilter = true) →
      ∃ command mask pet, w.parse = some command ∧
        w.readMask command.maskfile = .ok mask ∧ w.readPET command.petfile = .ok pet) ∧
    (∀ command, w.parse = some command →
      ((∃ e, w.readMask command.maskfile = .error e) ∨
        (∃ e, w.readPET command.petfile = .error e)) →
      (main m w).outcome = .returned EXIT_FAILURE ∧
        ∀ e ∈ (main m w).trace, e.isFilter = false) := by
  constructor
  · rintro ⟨e, he, hf⟩
    cases hp : w.parse with
    | none =>
      rw [main_parse_failed m w hp] at he
      simp at he
    | some command =>
      cases hm : w.readMask command.maskfile with
      | error x =>
        rw [main_mask_failed m w command x hp hm] at he
        simp at he
        subst he
        simp [Event.isFilter] at hf
      | ok mask =>
        cases hr : w.readPET command.petfile with
        | error x =>
          rw [main_pet_failed m w command mask x hp hm hr] at he
          simp at he
          subst he
          simp [Event.isFilter] at hf
        | ok pet => exact ⟨command, mask, pet, rfl, hm, hr⟩
  · intro command hp h
    cases hm : w.readMask command.maskfile with
    | error x =>
      rw [main_mask_failed m w command x hp hm]
      simp [Event.isFilter]
    | ok mask =>
      cases hr : w.readPET command.petfile with
      | error x =>
        rw [main_pet_failed m w command mask x hp hm hr]
        simp [Event.isFilter]
      | ok pet =>
        rcases h with ⟨e, he⟩ | ⟨e, he⟩
        · rw [hm] at he
          cases he
        · rw [hr] at he
          cases he

/-- Witness of C2: the filter is updated in the run on `goodWorld`, where three
successful stages are found, and the run on `missingPETWorld`, where the PET
reader throws, returns `EXIT_FAILURE` without touching the filter. -/
theorem C2_filter_needs_parse_and_reads_witness :
    (∃ e ∈ (main ⟨Real.sqrt, Real.log⟩ goodWorld).trace, e.isFilter = true) ∧
    (∃ command mask pet, (goodWorld : World ℝ).parse = some command ∧
      (goodWorld : World ℝ).readMask command.maskfile = .ok mask ∧
      (goodWorld : World ℝ).readPET command.petfile = .ok pet) ∧
    (∃ e, (missingPETWorld : World ℝ).readPET "nopet.nii" = .error e) ∧
    (main ⟨Real.sqrt, Real.log⟩ missingPETWorld).outcome = .returned EXIT_FAILURE ∧
    ∀ e ∈ (main ⟨Real.sqrt, Real.log⟩ missingPETWorld).trace, e.isFilter = false :=
  have h1 : ∃ e ∈ (main ⟨Real.sqrt, Real.log⟩ goodWorld).trace, e.isFilter = true :=
    ⟨.filterUpdate, by simp [main, goodWorld, sampleReadMask, sampleReadPET], rfl⟩
  have h2 : ∃ e, (missingPETWorld : World ℝ).readPET "nopet.nii" = .error e :=
    ⟨⟨"Could not open nopet.nii"⟩, by simp [missingPETWorld, sampleReadPET]⟩
  have h3 := (C2_filter_needs_parse_and_reads ⟨Real.sqrt, Real.log⟩ missingPETWorld).2
    ⟨"nopet.nii", "mask.nii", "out.nii", 4, 4, 4⟩ rfl (Or.inr h2)
  ⟨h1, (C2_filter_needs_parse_and_reads ⟨Real.sqrt, Real.log⟩ goodWorld).1 h1, h2, h3.1, h3.2⟩

/-- C5: in every run that `main` ends by returning `EXIT_FAILURE` (a failed
parse, mask read or PET read), no file is written and the filter, which would
produce the corrected volume, is not touched. -/
theorem C5_failure_writes_nothing {α : Type} [Field α] (m : MathLib α) (w : World α)
    (hfail : (main m w).outcome = .returned EXIT_FAILURE) :
    (main m w).written = [] ∧ (∀ e ∈ (main m w).trace, e.isWrite = false) ∧
      ∀ e ∈ (main m w).trace, e.isFilter = false := by
  cases hp : w.parse with
  | none =>
    rw [main_parse_failed m w hp]
    simp [Run.written]
  | some command =>
    cases hm : w.readMask command.maskfile with
    | error x =>
      rw [main_mask_failed m w command x hp hm]
      simp [Run.written, Event.isWrite, Event.isFilter]
    | ok mask =>
      cases hr : w.readPET command.petfile with
      | error x =>
        rw [main_pet_failed m w command mask x hp hm hr]
        simp [Run.written, Event.isWrite, Event.isFilter]
      | ok pet =>
        rw [main_outcome_of_reads m w command mask pet hp hm hr] at hfail
        cases hu : w.filterUpdate ⟨pet, mask, vVariance m (vFWHM command) pet.spacing⟩ with
        | error x =>
          rw [hu] at hfail
          cases hfail
        | ok u =>
          rw [hu] at hfail
          simp [EXIT_SUCCESS, EXIT_FAILURE] at hfail

/-- Witness of C5 on `missingMaskWorld`, where the mask reader throws. -/
theorem C5_failure_writes_nothing_witness :
    (main ⟨Real.sqrt, Real.log⟩ missingMaskWorld).outcome = .returned EXIT_FAILURE ∧
    (main ⟨Real.sqrt, Real.log⟩ missingMaskWorld).written = [] ∧
    (∀ e ∈ (main ⟨Real.sqrt, Real.log⟩ missingMaskWorld).trace, e.isWrite = false) ∧
    ∀ e ∈ (main ⟨Real.sqrt, Real.log⟩ missingMaskWorld).trace, e.isFilter = false :=
  have h : (main ⟨Real.sqrt, Real.log⟩ missingMaskWorld).outcome = .returned EXIT_FAILURE := by
    simp [main, missingMaskWorld, sampleReadMask]
  ⟨h, C5_failure_writes_nothing ⟨Real.sqrt, Real.log⟩ missingMaskWorld h⟩

/-- C4, the run that shows the defect: on `goodWorld`, whose command line names
`out.nii` as `outputfile`, every stage succeeds and `main` returns
`EXIT_SUCCESS`, yet the run writes no file: its events are the five calls on
the filter and nothing else. -/
theorem C4_success_writes_no_file :
    (goodWorld : World ℝ).parse = some ⟨"pet.nii", "mask.nii", "out.nii", 4, 4, 4⟩ ∧
    (main ⟨Real.sqrt, Real.log⟩ goodWorld).outcome = .returned EXIT_SUCCESS ∧
    (main ⟨Real.sqrt, Real.log⟩ goodWorld).written = [] ∧
    (main ⟨Real.sqrt, Real.log⟩ goodWorld).trace =
      [.filterNew, .setInput samplePET, .setMaskInput sampleMask,
        .setPSF (vVariance ⟨Real.sqrt, Real.log⟩ ⟨4, 4, 4⟩ ⟨2, 2, 2⟩), .filterUpdate] := by
  refine ⟨rfl, ?_, ?_, ?_⟩ <;>
    simp [main, goodWorld, sampleReadMask, sampleReadPET, Run.written, vFWHM, samplePET]

/-- C3, the run that shows the defect: on `updateThrowsWorld` the command line
is parsed, both images are read and the filter's `Update()` throws.  No
handler surrounds that call, so the exception leaves `main`: `main` sends
nothing to `std::cerr` and does not reach a `return`.  The two sibling calls
are handled: when a reader's `Update()` throws (`missingMaskWorld`,
`missingPETWorld`), `main` names the failed read on `std::cerr` and returns
`EXIT_FAILURE`. -/
theorem C3_update_failure_is_not_reported :
    (main ⟨Real.sqrt, Real.log⟩ updateThrowsWorld).outcome = .uncaught ⟨"GTM failed"⟩ ∧
    (main ⟨Real.sqrt, Real.log⟩ updateThrowsWorld).diagnostics = [] ∧
    main ⟨Real.sqrt, Real.log⟩ missingMaskWorld =
      ⟨[.cerr "[Error]\tCannot read mask input file: nomask.nii\n"],
        .returned EXIT_FAILURE⟩ ∧
    main ⟨Real.sqrt, Real.log⟩ missingPETWorld =
      ⟨[.cerr "[Error]\tCannot read PET input file: nopet.nii\n"],
        .returned EXIT_FAILURE⟩ := by
  refine ⟨?_, ?_, ?_, ?_⟩ <;>
    simp [main, updateThrowsWorld, missingMaskWorld, missingPETWorld, sampleReadMask,
      sampleReadPET, Run.diagnostics]

/-- C7, the runs that refute it: on `otherGridWorld` the PET image and the mask
are both read and differ in extent and in spacing, and `main` still hands
both to the filter and calls `Update()` as its last event, without a
diagnostic; when that `Update()` returns, `main` returns `EXIT_SUCCESS`, and
when it throws, the exception is raised inside `Update()`, not before it. -/
theorem C7_update_started_on_other_grid :
    (samplePET : PETImageType ℝ).size ≠ (otherGridMask : MaskImageType ℝ).spatialSize ∧
    (samplePET : PETImageType ℝ).spacing ≠ (otherGridMask : MaskImageType ℝ).spacing ∧
    (main ⟨Real.sqrt, Real.log⟩ (otherGridWorld (.ok ()))).trace =
      [.filterNew, .setInput samplePET, .setMaskInput otherGridMask,
        .setPSF (vVariance ⟨Real.sqrt, Real.log⟩ ⟨4, 4, 4⟩ ⟨2, 2, 2⟩), .filterUpdate] ∧
    (main ⟨Real.sqrt, Real.log⟩ (otherGridWorld (.ok ()))).outcome = .returned EXIT_SUCCESS ∧
    (main ⟨Real.sqrt, Real.log⟩ (otherGridWorld (.error ⟨"sizes differ"⟩))).trace =
      [.filterNew, .setInput samplePET, .setMaskInput otherGridMask,
        .setPSF (vVariance ⟨Real.sqrt, Real.log⟩ ⟨4, 4, 4⟩ ⟨2, 2, 2⟩), .filterUpdate] ∧
    (main ⟨Real.sqrt, Real.log⟩ (otherGridWorld (.error ⟨"sizes differ"⟩))).outcome =
      .uncaught ⟨"sizes differ"⟩ := by
  refine ⟨by decide, ?_, ?_, ?_, ?_, ?_⟩ <;>
    simp [main, otherGridWorld, sampleReadMask, sampleReadPET, vFWHM, samplePET, otherGridMask]

/-- C7 as amended: `main` does not compare the two images.  Whenever the command
line is parsed and both images are read, also when their extents or spacings
differ, `main` sends nothing to `std::cerr`, hands both images to the filter
and calls `Update()`; how the run ends is decided by that `Update()`. -/
theorem C7_geometry_is_not_checked {α : Type} [Field α] (m : MathLib α) (w : World α)
    (command : CommandLine α) (mask : MaskImageType α) (pet : PETImageType α)
    (hp : w.parse = some command)
    (hm : w.readMask command.maskfile = .ok mask)
    (hr : w.readPET command.petfile = .ok pet)
    (_hne : pet.size ≠ mask.spatialSize ∨ pet.spacing ≠ mask.spacing) :
    (main m w).trace =
      [.filterNew, .setInput pet, .setMaskInput mask,
        .setPSF (vVariance m (vFWHM command) pet.spacing), .filterUpdate] ∧
    (main m w).diagnostics = [] ∧
    (main m w).outcome =
      match w.filterUpdate ⟨pet, mask, vVariance m (vFWHM command) pet.spacing⟩ with
      | .error e => .uncaught e
      | .ok _ => .returned EXIT_SUCCESS := by
  refine ⟨main_trace_of_reads m w command mask pet hp hm hr, ?_,
    main_outcome_of_reads m w command mask pet hp hm hr⟩
  simp [Run.diagnostics, main_trace_of_reads m w command mask pet hp hm hr]

/-- Witness of the amended C7 on `otherGridWorld` with a filter that returns. -/
theorem C7_geometry_is_not_checked_witness :
    ((samplePET : PETImageType ℝ).size ≠ (otherGridMask : MaskImageType ℝ).spatialSize ∨
      (samplePET : PETImageType ℝ).spacing ≠ (otherGridMask : MaskImageType ℝ).spacing) ∧
    (main ⟨Real.sqrt, Real.log⟩ (otherGridWorld (.ok ()))).trace =
      [.filterNew, .setInput samplePET, .setMaskInput otherGridMask,
        .setPSF (vVariance ⟨Real.sqrt, Real.log⟩
          (vFWHM ⟨"pet.nii", "mask3.nii", "out.nii", 4, 4, 4⟩) samplePET.spacing),
        .filterUpdate] ∧
    (main ⟨Real.sqrt, Real.log⟩ (otherGridWorld (.ok ()))).diagnostics = [] ∧
    (main ⟨Real.sqrt, Real.log⟩ (otherGridWorld (.ok ()))).outcome = .returned EXIT_SUCCESS :=
  have hne : (samplePET : PETImageType ℝ).size ≠ (otherGridMask : MaskImageType ℝ).spatialSize ∨
      (samplePET : PETImageType ℝ).spacing ≠ (otherGridMask : MaskImageType ℝ).spacing :=
    Or.inl (by decide)
  ⟨hne, C7_geometry_is_not_checked ⟨Real.sqrt, Real.log⟩ (otherGridWorld (.ok ()))
    ⟨"pet.nii", "mask3.nii", "out.nii", 4, 4, 4⟩ otherGridMask samplePET rfl
    (by simp [otherGridWorld, sampleReadMask]) (by simp [otherGridWorld, sampleReadPET]) hne⟩

/-! ## The variance handed to the filter -/

/-- C1: over the reals, when the command line is parsed and both images are
read, with every component of the PET voxel spacing positive, `main` hands
exactly one vector to `SetPSF`, and on each axis `a` its value is
`((f_a / (2 * sqrt (2 * ln 2))) / s_a) ^ 2`, an expression in the FWHM `f_a` and
the spacing `s_a` of that axis alone. -/
theorem C1_psf_is_scaled_variance (w : World ℝ) (command : CommandLine ℝ)
    (mask : MaskImageType ℝ) (pet : PETImageType ℝ)
    (hp : w.parse = some command)
    (hm : w.readMask command.maskfile = .ok mask)
    (hr : w.readPET command.petfile = .ok pet)
    (_hs : ∀ a : Fin 3, 0 < pet.spacing.get a) :
    ∃ v : VectorType ℝ, (main ⟨Real.sqrt, Real.log⟩ w).psfs = [v] ∧
      (∀ a : Fin 3, v.get a =
        ((vFWHM command).get a / (2 * Real.sqrt (2 * Real.log 2)) / pet.spacing.get a) ^ 2) ∧
      ∀ (a : Fin 3) (f s : VectorType ℝ), f.get a = (vFWHM command).get a →
        s.get a = pet.spacing.get a →
        (vVariance ⟨Real.sqrt, Real.log⟩ f s).get a = v.get a := by
  refine ⟨vVariance ⟨Real.sqrt, Real.log⟩ (vFWHM command) pet.spacing, ?_, ?_, ?_⟩
  · simp [Run.psfs, main_trace_of_reads _ w command mask pet hp hm hr]
  · intro a
    exact vVariance_get _ _ _ a
  · intro a f s hf hs
    rw [vVariance_get, vVariance_get, hf, hs]

/-- Witness of C1 on `goodWorld`: FWHM 4 mm and spacing 2 mm on every axis. -/
theorem C1_psf_is_scaled_variance_witness :
    (∀ a : Fin 3, 0 < (samplePET : PETImageType ℝ).spacing.get a) ∧
    ∃ v : VectorType ℝ, (main ⟨Real.sqrt, Real.log⟩ goodWorld).psfs = [v] ∧
      (∀ a : Fin 3, v.get a =
        ((vFWHM (⟨"pet.nii", "mask.nii", "out.nii", 4, 4, 4⟩ : CommandLine ℝ)).get a /
          (2 * Real.sqrt (2 * Real.log 2)) / (samplePET : PETImageType ℝ).spacing.get a) ^ 2) ∧
      ∀ (a : Fin 3) (f s : VectorType ℝ),
        f.get a = (vFWHM (⟨"pet.nii", "mask.nii", "out.nii", 4, 4, 4⟩ : CommandLine ℝ)).get a →
        s.get a = (samplePET : PETImageType ℝ).spacing.get a →
        (vVariance ⟨Real.sqrt, Real.log⟩ f s).get a = v.get a :=
  have hs : ∀ a : Fin 3, 0 < (samplePET : PETImageType ℝ).spacing.get a := by
    intro a
    fin_cases a <;> simp [samplePET, VectorType.get]
  ⟨hs, C1_psf_is_scaled_variance goodWorld ⟨"pet.nii", "mask.nii", "out.nii", 4, 4, 4⟩
    sampleMask samplePET rfl (by simp [goodWorld, sampleReadMask])
    (by simp [goodWorld, sampleReadPET]) hs⟩

/-- C10: over the reals, on every axis `a` with positive spacing, the variance
that `main` computes is unchanged when the FWHM and the spacing of that axis
are both multiplied by a factor `k > 0`, and for a fixed spacing it does not
decrease when a non-negative FWHM grows. -/
theorem C10_variance_unit_invariant_monotone (a : Fin 3) (f s : VectorType ℝ)
    (hs : 0 < s.get a) :
    (∀ (k : ℝ) (f' s' : VectorType ℝ), 0 < k → f'.get a = k * f.get a →
        s'.get a = k * s.get a →
        (vVariance ⟨Real.sqrt, Real.log⟩ f' s').get a =
          (vVariance ⟨Real.sqrt, Real.log⟩ f s).get a) ∧
    (∀ f' : VectorType ℝ, 0 ≤ f.get a → f.get a ≤ f'.get a →
        (vVariance ⟨Real.sqrt, Real.log⟩ f s).get a ≤
          (vVariance ⟨Real.sqrt, Real.log⟩ f' s).get a) := by
  have hc : 0 < 2 * Real.sqrt (2 * Real.log 2) := fwhm_factor_pos
  constructor
  · intro k f' s' hk hf hs'
    rw [vVariance_get, vVariance_get, hf, hs']
    congr 1
    field_simp
    ring
  · intro f' h0 hle
    rw [vVariance_get, vVariance_get]
    have h1 : 0 ≤ f.get a / (2 * Real.sqrt (2 * Real.log 2)) / s.get a :=
      div_nonneg (div_nonneg h0 hc.le) hs.le
    have h2 : f.get a / (2 * Real.sqrt (2 * Real.log 2)) / s.get a ≤
        f'.get a / (2 * Real.sqrt (2 * Real.log 2)) / s.get a :=
      div_le_div_of_nonneg_right (div_le_div_of_nonneg_right hle hc.le) hs.le
    exact pow_le_pow_left₀ h1 h2 2

/-- Witness of C10 on the x axis: (4 mm, 2 mm) against (12 mm, 6 mm), that is
`k = 3`, and FWHM 4 mm against 5 mm at spacing 2 mm. -/
theorem C10_variance_unit_invariant_monotone_witness :
    (0 : ℝ) < (⟨2, 2, 2⟩ : VectorType ℝ).get 0 ∧
    (vVariance ⟨Real.sqrt, Real.log⟩ ⟨12, 0, 0⟩ ⟨6, 1, 1⟩).get 0 =
      (vVariance ⟨Real.sqrt, Real.log⟩ ⟨4, 4, 4⟩ ⟨2, 2, 2⟩).get 0 ∧
    (vVariance ⟨Real.sqrt, Real.log⟩ ⟨4, 4, 4⟩ ⟨2, 2, 2⟩).get 0 ≤
      (vVariance ⟨Real.sqrt, Real.log⟩ ⟨5, 4, 4⟩ ⟨2, 2, 2⟩).get 0 :=
  have hs : (0 : ℝ) < (⟨2, 2, 2⟩ : VectorType ℝ).get 0 := by
    simp [VectorType.get]
  have h := C10_variance_unit_invariant_monotone 0 ⟨4, 4, 4⟩ ⟨2, 2, 2⟩ hs
  ⟨hs,
    h.1 3 ⟨12, 0, 0⟩ ⟨6, 1, 1⟩ (by norm_num) (by simp [VectorType.get]; norm_num)
      (by simp [VectorType.get]; norm_num),
    h.2 ⟨5, 4, 4⟩ (by simp [VectorType.get]) (by simp [VectorType.get]; norm_num)⟩

/-- C6, the run that refutes it: on `negativeFWHMWorld` the FWHM along x is
-4 mm, and `main` reports no error: it sends nothing to `std::cerr`, hands
the variance of (-4, 4, 4) at spacing (2, 2, 2) to `SetPSF`, calls `Update()`
and returns `EXIT_SUCCESS`. -/
theorem C6_negative_fwhm_is_accepted :
    (negativeFWHMWorld : World ℝ).parse = some ⟨"pet.nii", "mask.nii", "out.nii", -4, 4, 4⟩ ∧
    (main ⟨Real.sqrt, Real.log⟩ negativeFWHMWorld).diagnostics = [] ∧
    (main ⟨Real.sqrt, Real.log⟩ negativeFWHMWorld).psfs =
      [vVariance ⟨Real.sqrt, Real.log⟩ ⟨-4, 4, 4⟩ ⟨2, 2, 2⟩] ∧
    Event.filterUpdate ∈ (main ⟨Real.sqrt, Real.log⟩ negativeFWHMWorld).trace ∧
    (main ⟨Real.sqrt, Real.log⟩ negativeFWHMWorld).outcome = .returned EXIT_SUCCESS := by
  refine ⟨rfl, ?_, ?_, ?_, ?_⟩ <;>
    simp [main, negativeFWHMWorld, sampleReadMask, sampleReadPET, vFWHM, samplePET,
      Run.diagnostics, Run.psfs]

/-- C6 as amended: `main` does not validate the FWHM or the spacing.  Over the
reals, for every FWHM vector, negative components included, and every PET
voxel spacing without a zero component, when the command line is parsed and
both images are read, `main` sends nothing to `std::cerr`, hands to `SetPSF`
the vector whose value on each axis is `((f_a / (2 * sqrt (2 * ln 2))) / s_a) ^ 2`,
calls `Update()` and does not return `EXIT_FAILURE`. -/
theorem C6_parameters_are_not_validated (w : World ℝ) (command : CommandLine ℝ)
    (mask : MaskImageType ℝ) (pet : PETImageType ℝ)
    (hp : w.parse = some command)
    (hm : w.readMask command.maskfile = .ok mask)
    (hr : w.readPET command.petfile = .ok pet)
    (_hs : ∀ a : Fin 3, pet.spacing.get a ≠ 0) :
    ∃ v : VectorType ℝ,
      (∀ a : Fin 3, v.get a =
        ((vFWHM command).get a / (2 * Real.sqrt (2 * Real.log 2)) / pet.spacing.get a) ^ 2) ∧
      (main ⟨Real.sqrt, Real.log⟩ w).psfs = [v] ∧
      Event.filterUpdate ∈ (main ⟨Real.sqrt, Real.log⟩ w).trace ∧
      (main ⟨Real.sqrt, Real.log⟩ w).diagnostics = [] ∧
      (main ⟨Real.sqrt, Real.log⟩ w).outcome ≠ .returned EXIT_FAILURE := by
  refine ⟨vVariance ⟨Real.sqrt, Real.log⟩ (vFWHM command) pet.spacing,
    fun a => vVariance_get _ _ _ a, ?_, ?_, ?_, ?_⟩
  · simp [Run.psfs, main_trace_of_reads _ w command mask pet hp hm hr]
  · simp [main_trace_of_reads _ w command mask pet hp hm hr]
  · simp [Run.diagnostics, main_trace_of_reads _ w command mask pet hp hm hr]
  · rw [main_outcome_of_reads _ w command mask pet hp hm hr]
    cases w.filterUpdate
      ⟨pet, mask, vVariance ⟨Real.sqrt, Real.log⟩ (vFWHM command) pet.spacing⟩ with
    | error x => simp
    | ok u => simp [EXIT_SUCCESS, EXIT_FAILURE]

/-- Witness of the amended C6 on `negativeFWHMWorld`. -/
theorem C6_parameters_are_not_validated_witness :
    (∀ a : Fin 3, (samplePET : PETImageType ℝ).spacing.get a ≠ 0) ∧
    ∃ v : VectorType ℝ,
      (∀ a : Fin 3, v.get a =
        ((vFWHM (⟨"pet.nii", "mask.nii", "out.nii", -4, 4, 4⟩ : CommandLine ℝ)).get a /
          (2 * Real.sqrt (2 * Real.log 2)) / (samplePET : PETImageType ℝ).spacing.get a) ^ 2) ∧
      (main ⟨Real.sqrt, Real.log⟩ negativeFWHMWorld).psfs = [v] ∧
      Event.filterUpdate ∈ (main ⟨Real.sqrt, Real.log⟩ negativeFWHMWorld).trace ∧
      (main ⟨Real.sqrt, Real.log⟩ negativeFWHMWorld).diagnostics = [] ∧
      (main ⟨Real.sqrt, Real.log⟩ negativeFWHMWorld).outcome ≠ .returned EXIT_FAILURE :=
  have hs : ∀ a : Fin 3, (samplePET : PETImageType ℝ).spacing.get a ≠ 0 := by
    intro a
    fin_cases a <;> simp [samplePET, VectorType.get]
  ⟨hs, C6_parameters_are_not_validated negativeFWHMWorld
    ⟨"pet.nii", "mask.nii", "out.nii", -4, 4, 4⟩ sampleMask samplePET rfl
    (by simp [negativeFWHMWorld, sampleReadMask])
    (by simp [negativeFWHMWorld, sampleReadPET]) hs⟩

/-! ## The linear solve -/

/-- C9: round trip of the GTM solve.  For every `K x K` transfer matrix `G` with
`det G ≠ 0` and every vector `t` of true regional activities, solving the
system on the forward-simulated means `G·t` returns `t`, whatever the
fallback for singular matrices is. -/
theorem C9_solve_round_trip {K : Nat} {α : Type} [Field α] [DecidableEq α]
    (fallback : Matrix (Fin K) (Fin K) α → (Fin K → α) → Except SolverError (Fin K → α))
    (G : Matrix (Fin K) (Fin K) α) (t : Fin K → α) (hG : G.det ≠ 0) :
    solve fallback G (forwardSimulate G t) = .ok t := by
  have hcr : Matrix.cramer G (G.mulVec t) = G.det • t := by
    rw [Matrix.cramer_eq_adjugate_mulVec, Matrix.mulVec_mulVec, Matrix.adjugate_mul,
      Matrix.smul_mulVec_assoc, Matrix.one_mulVec]
  unfold solve forwardSimulate
  rw [if_neg hG, hcr]
  congr 1
  funext i
  simp [Pi.smul_apply, mul_div_assoc, mul_comm, hG]

/-- Witness of C9: two regions, `G = [[2, 1], [1, 3]]` over the rationals and
true activities `(100, 50)`. -/
theorem C9_solve_round_trip_witness :
    (Matrix.of ![![2, 1], ![1, 3]] : Matrix (Fin 2) (Fin 2) ℚ).det ≠ 0 ∧
    solve (fun _ _ => .error .SingularMatrixError)
        (Matrix.of ![![2, 1], ![1, 3]] : Matrix (Fin 2) (Fin 2) ℚ)
        (forwardSimulate (Matrix.of ![![2, 1], ![1, 3]]) ![100, 50]) =
      .ok ![100, 50] :=
  have hG : (Matrix.of ![![2, 1], ![1, 3]] : Matrix (Fin 2) (Fin 2) ℚ).det ≠ 0 := by
    simp [Matrix.det_fin_two]
    norm_num
  ⟨hG, C9_solve_round_trip _ _ _ hG⟩

end PETPVC
